import Mathlib

/-!
Shallow embedding of the chasi-sreagent orchestration engine
(`pkg/framework/engine`, `pkg/framework/analyzer`, `pkg/framework/action`,
`pkg/common/types`, `pkg/common/types/enum`) in Lean 4, together with
theorems settling the specification claims about the pipeline stages
(RunAnalysis, RunDiagnosis, SuggestActions, ExecuteAction) and the
capability registries.

Modelling conventions:
* Go machine values irrelevant to control flow (timestamps, durations,
  UUIDs) are omitted: the engine only writes them, never branches on them.
* Go `float64` confidence/score values are embedded as `Rat`; the engine
  never computes with them.
* Go interfaces (`DataCollector`, `Analyzer`, `Action`, `LLM`,
  `KnowledgeBase`) become structures whose method fields capture the
  behaviour of one implementation during one pipeline pass (the `ctx` and
  `options` arguments are fixed for a pass, so each method is a function
  of the remaining arguments only).
* Go multi-value returns `(T, error)` become `Except String T`, except for
  the LLM call whose returned string is read even on the error path, which
  becomes `String × Option String`.
* `panic` in the registries is embedded as the `Except.error` branch of
  the registration function: reaching it means the process does not
  continue past the call.
-/

namespace ChasiSreagent

/-- `enum.IssueSeverity` from `pkg/common/types/enum/enum.go`. -/
inductive IssueSeverity where
  | unknown
  | info
  | warning
  | error
  | critical
deriving DecidableEq, Repr

/-- `IssueSeverity.String()` from `enum.go`. -/
def IssueSeverity.str : IssueSeverity → String
  | .info => "Info"
  | .warning => "Warning"
  | .error => "Error"
  | .critical => "Critical"
  | .unknown => "Unknown"

/-- `enum.AnalysisStatus` from `enum.go`. -/
inductive AnalysisStatus where
  | pending
  | running
  | completed
  | failed
  | skipped
deriving DecidableEq, Repr

/-- `enum.ActionType` from `enum.go`. -/
inductive ActionType where
  | unknown
  | suggestion
  | automated
deriving DecidableEq, Repr

/-- `enum.DataSourceType` from `enum.go`. -/
inductive DataSourceType where
  | unknown
  | kubernetesAPI
  | businessSDK
  | logSource
  | metric
  | event
deriving DecidableEq, Repr

/-- `types.IssueResource` from `pkg/common/types/types.go` (field
`Namespace` is rendered `nameSpace` because `namespace` is reserved). -/
structure IssueResource where
  rtype : String
  nameSpace : String
  name : String
  uid : String
  vcluster : String
deriving DecidableEq, Repr

/-- `types.Issue` from `types.go`; the `Timestamp` and free-form `Context`
fields, which the engine never reads, are omitted. -/
structure Issue where
  id : String
  name : String
  message : String
  severity : IssueSeverity
  resource : Option IssueResource
  analyzers : List String
deriving DecidableEq, Repr

/-- `types.AnalysisResult` from `types.go`; `Timestamp`/`Duration`
omitted. -/
structure AnalysisResult where
  id : String
  status : AnalysisStatus
  issues : List Issue
  analyzersRun : List String
  errorMsg : String
deriving DecidableEq, Repr

/-- `types.RemediationSuggestion` from `types.go`; the opaque `Payload`
map is embedded as an association list, `Confidence` as `Rat`. -/
structure RemediationSuggestion where
  issueID : String
  description : String
  actionType : ActionType
  command : String
  payload : List (String × String)
  confidence : Rat
  source : String
deriving DecidableEq, Repr

/-- `types.LLMInteractionDetails` from `types.go`. -/
structure LLMInteractionDetails where
  provider : String
  model : String
  prompt : String
  response : String
deriving DecidableEq, Repr

/-- `types.KnowledgeBaseHit` from `types.go`; `Score` as `Rat`. -/
structure KnowledgeBaseHit where
  id : String
  source : String
  content : String
  score : Rat
deriving DecidableEq, Repr

/-- `types.DiagnosisResult` from `types.go`; `Timestamp`/`Duration`
omitted. -/
structure DiagnosisResult where
  analysisResultID : String
  rootCause : String
  suggestions : List RemediationSuggestion
  llmInteraction : Option LLMInteractionDetails
  knowledgeBaseHits : List KnowledgeBaseHit
  errorMsg : String
deriving DecidableEq, Repr

/-- `types.ActionsConfig` from `types.go`. -/
structure ActionsConfig where
  enabled : Bool
deriving DecidableEq, Repr

/-- The slice of `types.Config` the engine reads: the automation flag and
the enabled LLM provider's model name (`cfg.LLM.GetEnabledLLMProvider`
only feeds the `Model` field of the interaction record). -/
structure Config where
  actions : ActionsConfig
  llmModel : String
deriving DecidableEq, Repr

/-- One `datacollector.DataCollector` implementation during one pass:
`Name()`, `Type()` and the outcome of `Collect(ctx, options)`. -/
structure DataCollector where
  name : String
  dtype : DataSourceType
  collect : Except String String

/-- One `analyzer.Analyzer` implementation during one pass: `Name()`,
`RequiredDataSources()` and the outcome of `Analyze(ctx)`. -/
structure AnalyzerImpl where
  name : String
  requiredDataSources : List DataSourceType
  analyze : Except String (List Issue)

/-- One `action.Action` implementation: `Name()`, `Type()`,
`Plan(ctx, diagnosis)` and `Execute(ctx, suggestion)`. -/
structure ActionImpl where
  name : String
  atype : ActionType
  plan : DiagnosisResult → Except String (Bool × RemediationSuggestion)
  execute : RemediationSuggestion → Except String String

/-- One `llm.LLM` implementation: `Name()` and `GenerateText(ctx, prompt,
options)`, returning the response string together with the optional error
(the engine reads the string even on the error path). -/
structure LLMProvider where
  name : String
  generateText : String → String × Option String

/-- One `knowledgebase.KnowledgeBase` implementation:
`Retrieve(ctx, query, options)` with the engine's fixed `{"k": 5}`
options. -/
structure KnowledgeBase where
  retrieve : String → Except String (List KnowledgeBaseHit)

/-- `engine.SREAgentEngine` from `pkg/framework/engine/engine.go`: the
configuration and the injected dependencies. -/
structure SREAgentEngine where
  config : Config
  dataCollectors : List DataCollector
  analyzers : List AnalyzerImpl
  knowledgeBase : Option KnowledgeBase
  llmProvider : LLMProvider
  actions : List ActionImpl

/-! ### SuggestActions (engine.go lines 376-456) -/

/-- The planning loop of `SuggestActions` (engine.go lines 403-426),
instrumented with the list of action names whose `Plan` was invoked.
An automated action is skipped (its `Plan` is not called) when the
global automation flag is off; a planning error drops the action's
contribution; a relevant plan appends its suggestion. -/
def planActionsStep (enabled : Bool)
    (acc : List RemediationSuggestion × List String) (act : ActionImpl)
    (d : DiagnosisResult) : List RemediationSuggestion × List String :=
  if act.atype = ActionType.automated ∧ enabled = false then acc
  else
    match act.plan d with
    | Except.error _ => (acc.1, acc.2 ++ [act.name])
    | Except.ok (isRelevant, s) =>
        (if isRelevant then acc.1 ++ [s] else acc.1, acc.2 ++ [act.name])

/-- The action-planning loop of `SuggestActions`: returns the planned
suggestions (`allSuggestions` in the source) and the instrumentation
list of invoked action names. -/
def planActions (enabled : Bool) (actions : List ActionImpl)
    (d : DiagnosisResult) : List RemediationSuggestion × List String :=
  actions.foldl (fun acc act => planActionsStep enabled acc act d) ([], [])

/-- One iteration of the merge loop of `SuggestActions` (engine.go lines
447-452): the accumulator is the combined list plus the set of seen
description texts. -/
def mergeStep (acc : List RemediationSuggestion × List String)
    (s : RemediationSuggestion) :
    List RemediationSuggestion × List String :=
  if s.description ∈ acc.2 then acc
  else (acc.1 ++ [s], acc.2 ++ [s.description])

/-- The merge of `SuggestActions` (engine.go lines 437-452): start from
the reasoning (LLM) suggestions, seed the seen-set with their
descriptions, then append each action-planned suggestion whose
description has not been seen. -/
def mergeSuggestions (reasoning planned : List RemediationSuggestion) :
    List RemediationSuggestion :=
  (planned.foldl mergeStep
    (reasoning, reasoning.map (fun s => s.description))).1

/-- Instrumented result of `SuggestActions`: the returned suggestion list
and the names of the actions whose `Plan` ran. -/
structure SuggestTrace where
  result : List RemediationSuggestion
  planned : List String
deriving Repr

/-- `SREAgentEngine.SuggestActions` (engine.go lines 376-456). -/
def suggestActions (e : SREAgentEngine) (d : DiagnosisResult) :
    SuggestTrace :=
  let p := planActions e.config.actions.enabled e.actions d
  { result := mergeSuggestions d.suggestions p.1, planned := p.2 }

/-- Modelled from the spec (§4.6 merge algorithm), for comparison with
the source's `mergeSuggestions`: walk the action-planned list, keeping a
suggestion exactly when no suggestion already in the merged list has the
same description text. -/
def mergeSpecKeep (existing : List RemediationSuggestion) :
    List RemediationSuggestion → List RemediationSuggestion
  | [] => []
  | s :: rest =>
      if s.description ∈ existing.map (fun t => t.description) then
        mergeSpecKeep existing rest
      else
        s :: mergeSpecKeep (existing ++ [s]) rest

/-- Modelled from the spec (§4.6): reasoning suggestions first, in order,
then the action-planned suggestions that survive deduplication. -/
def mergeSpecification (reasoning planned : List RemediationSuggestion) :
    List RemediationSuggestion :=
  reasoning ++ mergeSpecKeep reasoning planned

/-! ### RunAnalysis (engine.go lines 103-196) -/

/-- Insert-or-overwrite into the `collectedData` map keyed by
`enum.DataSourceType` (Go map assignment `collectedData[collector.Type()]
= data`). -/
def mapSet (m : List (DataSourceType × String)) (k : DataSourceType)
    (v : String) : List (DataSourceType × String) :=
  (m.filter (fun p => p.1 ≠ k)) ++ [(k, v)]

/-- Membership test on the collected-data map (Go `_, ok :=
collectedData[requiredType]`). -/
def mapHas (m : List (DataSourceType × String)) (k : DataSourceType) :
    Bool :=
  m.any (fun p => p.1 = k)

/-- The data-collection loop of `RunAnalysis` (engine.go lines 122-137):
a collector's failure is logged and skipped, a success stores its payload
under the collector's source type. -/
def collectData (collectors : List DataCollector) :
    List (DataSourceType × String) :=
  collectors.foldl
    (fun m c =>
      match c.collect with
      | Except.error _ => m
      | Except.ok d => mapSet m c.dtype d)
    []

/-- The `missingData` check of `RunAnalysis` (engine.go lines 149-168):
true when some declared required source type is absent from the collected
map. -/
def missingData (collected : List (DataSourceType × String))
    (a : AnalyzerImpl) : Bool :=
  a.requiredDataSources.any (fun t => mapHas collected t = false)

/-- Instrumented result of `RunAnalysis`: the analysis result together
with the names of the analyzers whose `Analyze` was invoked. -/
structure AnalysisTrace where
  result : AnalysisResult
  invoked : List String
deriving DecidableEq, Repr

/-- One iteration of the analyzer loop of `RunAnalysis` (engine.go lines
143-188), accumulating (issues, audit entries, invoked names). -/
def runAnalyzerStep (collected : List (DataSourceType × String))
    (acc : List Issue × List String × List String) (a : AnalyzerImpl) :
    List Issue × List String × List String :=
  if missingData collected a then
    (acc.1, acc.2.1 ++ [a.name ++ " (Skipped)"], acc.2.2)
  else
    match a.analyze with
    | Except.error _ =>
        (acc.1, acc.2.1 ++ [a.name ++ " (Failed)"], acc.2.2 ++ [a.name])
    | Except.ok issues =>
        (acc.1 ++ issues, acc.2.1 ++ [a.name ++ " (Completed)"],
          acc.2.2 ++ [a.name])

/-- `SREAgentEngine.RunAnalysis` (engine.go lines 103-196). The generated
UUID is environmental and embedded as the fixed id `""`; the final status
is set to `AnalysisStatusCompleted` after the loop. -/
def runAnalysis (e : SREAgentEngine) : AnalysisTrace :=
  let collected := collectData e.dataCollectors
  let acc := e.analyzers.foldl (runAnalyzerStep collected) ([], [], [])
  { result :=
      { id := ""
        status := AnalysisStatus.completed
        issues := acc.1
        analyzersRun := acc.2.1
        errorMsg := "" }
    invoked := acc.2.2 }

/-! ### RunDiagnosis (engine.go lines 200-348) -/

/-- The per-issue prompt block of `RunDiagnosis` (engine.go lines
236-247); `i` is the zero-based loop index. -/
def issueBlock (i : Nat) (issue : Issue) : String :=
  "Issue " ++ toString (i + 1) ++ ":\n" ++
  "  Name: " ++ issue.name ++ "\n" ++
  "  Severity: " ++ issue.severity.str ++ "\n" ++
  "  Message: " ++ issue.message ++ "\n" ++
  (match issue.resource with
   | some r =>
       "  Resource: Type=" ++ r.rtype ++ ", Name=" ++ r.name ++
       ", Namespace=" ++ r.nameSpace ++ ", VCluster=" ++ r.vcluster ++ "\n"
   | none => "") ++
  "\n"

/-- Concatenation of the issue blocks in order with their indices. -/
def issuesSection (issues : List Issue) : String :=
  String.join ((List.range issues.length).zip issues |>.map
    (fun p => issueBlock p.1 p.2))

/-- Go's `%.2f` float rendering of a knowledge-hit score, abbreviated to
the decimal rendering of the embedded `Rat`; it only feeds prompt text
that no claim inspects. -/
def fmtScore (q : Rat) : String := toString q

/-- The knowledge section of the prompt (engine.go lines 267-271),
emitted only when the retrieval succeeded with at least one hit. -/
def kbSection (hits : List KnowledgeBaseHit) : String :=
  "Relevant knowledge from SRE Knowledge Base:\n\n" ++
  String.join (hits.map (fun hit =>
    "Source: " ++ hit.source ++ " (Score: " ++ fmtScore hit.score ++
    ")\n" ++ hit.content ++ "\n\n"))

/-- The knowledge-base query of `RunDiagnosis` (engine.go line 252);
Go's `%v` rendering of the issue slice is abbreviated to the names of the
issues — the query only feeds the opaque retriever. -/
def kbQueryOf (issues : List Issue) : String :=
  "Diagnose Kubernetes issues: " ++
  String.join (issues.map (fun i => i.name ++ " "))

/-- The retrieval step of `RunDiagnosis` (engine.go lines 253-275): the
hits recorded on the diagnosis (empty when the KB is absent or the
retrieval fails). -/
def kbHitsOf (e : SREAgentEngine) (issues : List Issue) :
    List KnowledgeBaseHit :=
  match e.knowledgeBase with
  | none => []
  | some kb =>
      match kb.retrieve (kbQueryOf issues) with
      | Except.error _ => []
      | Except.ok hits => hits

/-- The fixed prompt preamble (engine.go lines 233-234). -/
def promptPreamble : String :=
  "You are an AI SRE agent assisting with troubleshooting Kubernetes issues in a multi-tenant vcluster environment.\n" ++
  "Analyze the following issues detected in the cluster:\n\n"

/-- The fixed output-format instruction closing the prompt (engine.go
lines 277-282). -/
def promptSuffix : String :=
  "Based on the issues and relevant knowledge, provide:\n" ++
  "1. A concise root cause analysis.\n" ++
  "2. Suggested remediation steps.\n" ++
  "Please provide the root cause analysis as a paragraph and the suggestions as a numbered list.\n"

/-- The full prompt assembled by `RunDiagnosis` for a non-empty issue
list. -/
def promptOf (e : SREAgentEngine) (issues : List Issue) : String :=
  promptPreamble ++ issuesSection issues ++
  (let hits := kbHitsOf e issues
   if hits.length > 0 then kbSection hits else "") ++
  promptSuffix

/-- `parseLLMDiagnosisResponse` (engine.go lines 354-370): the
placeholder implementation, which ignores the response format, preserves
the raw response inside a fixed root-cause prefix, returns one fixed
could-not-parse marker suggestion, and never errors. -/
def parseLLMDiagnosisResponse (response : String) :
    String × List String × Option String :=
  ("Parsing logic not yet implemented. Raw LLM response:\n" ++ response,
   ["Parsing failed, cannot extract suggestions from raw response."],
   none)

/-- `errors.AgentError.Error()` (pkg/common/errors/errors.go) for a
wrapping error: `[CODE] message: details (details: ..., wrapped: err)`.
The stray fifth format verb of the Go format string is immaterial. -/
def agentErrorWrapStr (code message details wrapped : String) : String :=
  "[" ++ code ++ "] " ++ message ++ ": " ++ details ++
  " (details: " ++ details ++ ", wrapped: " ++ wrapped ++ ")"

/-- Instrumented result of `RunDiagnosis`: the diagnosis, whether the LLM
was called, and the error value of the Go return pair. -/
structure DiagTrace where
  diag : DiagnosisResult
  llmCalled : Bool
  errOut : Option String
deriving Repr

/-- `SREAgentEngine.RunDiagnosis` (engine.go lines 200-348). An empty
issue list short-circuits to the trivial diagnosis without an LLM call;
an LLM error still returns the diagnosis, with the fixed failure marker
as root cause and the wrapped error recorded; otherwise the placeholder
parser output is converted into suggestion-only suggestions sourced
`"LLM"`. The function is total: no path yields a nil diagnosis. -/
def runDiagnosis (e : SREAgentEngine) (ar : AnalysisResult) : DiagTrace :=
  let base : DiagnosisResult :=
    { analysisResultID := ar.id
      rootCause := ""
      suggestions := []
      llmInteraction := none
      knowledgeBaseHits := []
      errorMsg := "" }
  if ar.issues.isEmpty then
    { diag := { base with rootCause := "No issues detected." }
      llmCalled := false
      errOut := none }
  else
    let hits := kbHitsOf e ar.issues
    let finalPrompt := promptOf e ar.issues
    let llmOut := e.llmProvider.generateText finalPrompt
    let interaction : LLMInteractionDetails :=
      { provider := e.llmProvider.name
        model := e.config.llmModel
        prompt := finalPrompt
        response := llmOut.1 }
    let withLLM : DiagnosisResult :=
      { base with knowledgeBaseHits := hits,
                  llmInteraction := some interaction }
    match llmOut.2 with
    | some llmErr =>
        let wrapped :=
          agentErrorWrapStr "LLM_PROVIDER_ERROR" "LLM diagnosis failed"
            "" llmErr
        { diag := { withLLM with
                      rootCause :=
                        "Failed to perform diagnosis due to LLM error."
                      errorMsg := wrapped }
          llmCalled := true
          errOut := some wrapped }
    | none =>
        let parsed := parseLLMDiagnosisResponse llmOut.1
        match parsed.2.2 with
        | some parseErr =>
            { diag := { withLLM with
                          rootCause :=
                            "LLM response received but parsing failed: " ++
                            llmOut.1
                          errorMsg :=
                            agentErrorWrapStr "UNKNOWN"
                              "Failed to parse LLM response" "" parseErr }
              llmCalled := true
              errOut := none }
        | none =>
            { diag := { withLLM with
                          rootCause := parsed.1
                          suggestions := parsed.2.1.map (fun s =>
                            { issueID := "N/A"
                              description := s
                              actionType := ActionType.suggestion
                              command := ""
                              payload := []
                              confidence := (4 : Rat) / 5
                              source := "LLM" }) }
              llmCalled := true
              errOut := none }

/-! ### ExecuteAction (engine.go lines 460-507) -/

/-- `action.GetAction` (pkg/framework/action/action.go lines 84-90) over
the registry embedded as an association-by-name list. -/
def getAction (registry : List ActionImpl) (name : String) :
    Option ActionImpl :=
  registry.find? (fun a => a.name = name)

/-- Instrumented result of `ExecuteAction`: the Go return pair, plus the
name of the action whose `Execute` actually ran (if any). -/
structure ExecTrace where
  outcome : Except String String
  executed : Option String

/-- `SREAgentEngine.ExecuteAction` (engine.go lines 460-507): reject a
non-automated suggestion, then a disabled automation flag, then an
unresolvable producer name (`suggestion.Source`), then a resolved action
that is not itself automated; only then delegate to the action's
`Execute`. -/
def executeAction (cfg : Config) (registry : List ActionImpl)
    (s : RemediationSuggestion) : ExecTrace :=
  if s.actionType ≠ ActionType.automated then
    { outcome := Except.error "action type is not automated"
      executed := none }
  else if cfg.actions.enabled = false then
    { outcome := Except.error "automated actions disabled"
      executed := none }
  else
    match getAction registry s.source with
    | none =>
        { outcome := Except.error "action implementation not found"
          executed := none }
    | some act =>
        if act.atype ≠ ActionType.automated then
          { outcome := Except.error "registered action is not automated"
            executed := none }
        else
          match act.execute s with
          | Except.error msg =>
              { outcome :=
                  Except.error ("failed to execute action: " ++ msg)
                executed := some act.name }
          | Except.ok r =>
              { outcome := Except.ok r, executed := some act.name }

/-! ### Capability registries (analyzer.go lines 62-72, action.go lines
68-78) -/

/-- `analyzer.RegisterAnalyzer`: Go `panic` on a duplicate name is
embedded as the `Except.error` branch (the process does not continue past
the call); otherwise the entry is added to the registry map. -/
def registerAnalyzer (reg : List (String × AnalyzerImpl))
    (a : AnalyzerImpl) : Except String (List (String × AnalyzerImpl)) :=
  if reg.any (fun p => p.1 = a.name) then
    Except.error
      ("analyzer with name \x27" ++ a.name ++ "\x27 already registered")
  else
    Except.ok (reg ++ [(a.name, a)])

/-- `action.RegisterAction`: same fatal-on-duplicate policy, on the
action registry. -/
def registerAction (reg : List (String × ActionImpl)) (a : ActionImpl) :
    Except String (List (String × ActionImpl)) :=
  if reg.any (fun p => p.1 = a.name) then
    Except.error
      ("action with name \x27" ++ a.name ++ "\x27 already registered")
  else
    Except.ok (reg ++ [(a.name, a)])


/-! ### Derived per-analyzer views of the RunAnalysis loop -/

/-- The audit entry that one analyzer receives during the `RunAnalysis`
loop, as a function of the collected-data map: skipped when required data
is missing, failed on an `Analyze` error, completed otherwise. -/
def auditEntry (t : List (DataSourceType × String)) (a : AnalyzerImpl) :
    String :=
  if missingData t a then a.name ++ " (Skipped)"
  else
    match a.analyze with
    | Except.error _ => a.name ++ " (Failed)"
    | Except.ok _ => a.name ++ " (Completed)"

/-- The issues one analyzer contributes during the `RunAnalysis` loop:
none when skipped or failed, its `Analyze` output otherwise. -/
def issuesContrib (t : List (DataSourceType × String))
    (a : AnalyzerImpl) : List Issue :=
  if missingData t a then []
  else
    match a.analyze with
    | Except.error _ => []
    | Except.ok issues => issues

/-- The invocation record of one analyzer during the `RunAnalysis` loop:
empty when skipped, its name otherwise. -/
def invokedContrib (t : List (DataSourceType × String))
    (a : AnalyzerImpl) : List String :=
  if missingData t a then [] else [a.name]

/-! ### Concrete scenario inputs -/

/-- The reasoning-backend suggestion of the spec's merge example:
description "Restart pod X", sourced from the LLM. -/
def c1SugA : RemediationSuggestion :=
  { issueID := "i1", description := "Restart pod X"
    actionType := ActionType.suggestion, command := "", payload := []
    confidence := (4 : Rat) / 5, source := "LLM" }

/-- The first action-planned suggestion of the example: duplicate
description "Restart pod X". -/
def c1SugB1 : RemediationSuggestion :=
  { issueID := "i1", description := "Restart pod X"
    actionType := ActionType.suggestion, command := "", payload := []
    confidence := (4 : Rat) / 5, source := "restart-action" }

/-- The second action-planned suggestion of the example: description
"Scale deployment Y". -/
def c1SugB2 : RemediationSuggestion :=
  { issueID := "i1", description := "Scale deployment Y"
    actionType := ActionType.suggestion, command := "", payload := []
    confidence := (4 : Rat) / 5, source := "scale-action" }

/-- An engine whose action registry plans exactly `c1SugB1` then
`c1SugB2`, for running the example through `suggestActions` itself. -/
def c1Engine : SREAgentEngine :=
  { config := { actions := { enabled := true }, llmModel := "m" }
    dataCollectors := []
    analyzers := []
    knowledgeBase := none
    llmProvider := { name := "llm", generateText := fun _ => ("", none) }
    actions :=
      [{ name := "restart-action", atype := ActionType.suggestion
         plan := fun _ => Except.ok (true, c1SugB1)
         execute := fun _ => Except.ok "" },
       { name := "scale-action", atype := ActionType.suggestion
         plan := fun _ => Except.ok (true, c1SugB2)
         execute := fun _ => Except.ok "" }] }

/-- The diagnosis carrying the single reasoning suggestion `c1SugA`. -/
def c1Diagnosis : DiagnosisResult :=
  { analysisResultID := "a1", rootCause := "rc"
    suggestions := [c1SugA], llmInteraction := none
    knowledgeBaseHits := [], errorMsg := "" }

/-- A suggestion-only suggestion, for exercising the execution gate. -/
def c2Suggestion : RemediationSuggestion :=
  { issueID := "i2", description := "Check the logs manually"
    actionType := ActionType.suggestion, command := "", payload := []
    confidence := (4 : Rat) / 5, source := "LLM" }

/-- An issue for the reasoning-failure scenario. -/
def c3Issue : Issue :=
  { id := "i3", name := "NodeNotReady", message := "node is not ready"
    severity := IssueSeverity.warning, resource := none
    analyzers := ["kubernetes-pod-analyzer"] }

/-- An engine whose reasoning backend always errors. -/
def c3Engine : SREAgentEngine :=
  { config := { actions := { enabled := false }, llmModel := "m" }
    dataCollectors := []
    analyzers := []
    knowledgeBase := none
    llmProvider := { name := "down-llm"
                     generateText := fun _ => ("", some "connection refused") }
    actions := [] }

/-- An analysis result with one finding, feeding `c3Engine`. -/
def c3Analysis : AnalysisResult :=
  { id := "a3", status := AnalysisStatus.completed, issues := [c3Issue]
    analyzersRun := ["kubernetes-pod-analyzer (Completed)"]
    errorMsg := "" }

/-- An analysis result with no findings. -/
def c4Analysis : AnalysisResult :=
  { id := "a4", status := AnalysisStatus.completed, issues := []
    analyzersRun := [], errorMsg := "" }

/-- A collector that succeeds with Kubernetes API data. -/
def c5Collector : DataCollector :=
  { name := "k8s-collector", dtype := DataSourceType.kubernetesAPI
    collect := Except.ok "k8s-data" }

/-- A finding raised by the satisfied analyzer. -/
def c5Issue : Issue :=
  { id := "i5", name := "PodPending", message := "pod stuck pending"
    severity := IssueSeverity.warning, resource := none
    analyzers := ["pod-analyzer"] }

/-- An analyzer whose requirement (Kubernetes API data) is satisfied. -/
def c5Satisfied : AnalyzerImpl :=
  { name := "pod-analyzer"
    requiredDataSources := [DataSourceType.kubernetesAPI]
    analyze := Except.ok [c5Issue] }

/-- An analyzer requiring log data, which no collector supplies. -/
def c5NeedsLogs : AnalyzerImpl :=
  { name := "log-analyzer"
    requiredDataSources := [DataSourceType.logSource]
    analyze := Except.ok [{ c5Issue with id := "i5b", name := "LogSpam" }] }

/-- The engine for the skip scenario (analyzer list supplied at the use
site). -/
def c5Engine : SREAgentEngine :=
  { config := { actions := { enabled := false }, llmModel := "m" }
    dataCollectors := [c5Collector]
    analyzers := []
    knowledgeBase := none
    llmProvider := { name := "llm", generateText := fun _ => ("", none) }
    actions := [] }

/-- An analyzer with no data requirements whose `Analyze` errors. -/
def c6Failing : AnalyzerImpl :=
  { name := "flaky-analyzer", requiredDataSources := []
    analyze := Except.error "boom" }

/-- The automatable action of the disabled-automation scenario: it plans
the relevant suggestion "Scale deployment Y". -/
def c7Sug : RemediationSuggestion :=
  { issueID := "i7", description := "Scale deployment Y"
    actionType := ActionType.automated, command := ""
    payload := [], confidence := 1, source := "scale-action" }

/-- The registered automatable action whose `Plan` would return
`c7Sug`. -/
def c7Action : ActionImpl :=
  { name := "scale-action", atype := ActionType.automated
    plan := fun _ => Except.ok (true, c7Sug)
    execute := fun _ => Except.ok "scaled" }

/-- An engine with automation disabled and `c7Action` as its only
action. -/
def c7Engine : SREAgentEngine :=
  { config := { actions := { enabled := false }, llmModel := "m" }
    dataCollectors := []
    analyzers := []
    knowledgeBase := none
    llmProvider := { name := "llm", generateText := fun _ => ("", none) }
    actions := [c7Action] }

/-- A diagnosis with no reasoning suggestions, feeding `c7Engine`. -/
def c7Diagnosis : DiagnosisResult :=
  { analysisResultID := "a7", rootCause := "rc", suggestions := []
    llmInteraction := none, knowledgeBaseHits := [], errorMsg := "" }

/-- An analyzer for the shared-name registration scenario. -/
def c8Analyzer : AnalyzerImpl :=
  { name := "restart-helper", requiredDataSources := []
    analyze := Except.ok [] }

/-- A second analyzer carrying the same name as `c8Analyzer`. -/
def c8AnalyzerDup : AnalyzerImpl :=
  { name := "restart-helper"
    requiredDataSources := [DataSourceType.logSource]
    analyze := Except.error "second registration" }

/-- An action carrying the same name as `c8Analyzer`, for the
cross-registry half of the scenario. -/
def c8Action : ActionImpl :=
  { name := "restart-helper", atype := ActionType.automated
    plan := fun _ => Except.error "unused"
    execute := fun _ => Except.ok "" }

/-- The single finding of the end-to-end scenario. -/
def c9Issue : Issue :=
  { id := "issue-9", name := "PodCrashLoopBackOff"
    message := "Pod my-app-xyz is in CrashLoopBackOff"
    severity := IssueSeverity.error
    resource := some { rtype := "Pod", nameSpace := "default"
                       name := "my-app-xyz", uid := ""
                       vcluster := "vcluster-a" }
    analyzers := ["kubernetes-pod-analyzer"] }

/-- The end-to-end scenario engine: one collector, one analyzer raising
`c9Issue`, and a mocked reasoning backend answering
"Root Cause: ...\nSuggestions:\n1. Restart the pod". -/
def c9Engine : SREAgentEngine :=
  { config := { actions := { enabled := false }, llmModel := "mock-model" }
    dataCollectors := [{ name := "k8s-collector"
                         dtype := DataSourceType.kubernetesAPI
                         collect := Except.ok "k8s-data" }]
    analyzers := [{ name := "kubernetes-pod-analyzer"
                    requiredDataSources := [DataSourceType.kubernetesAPI]
                    analyze := Except.ok [c9Issue] }]
    knowledgeBase := none
    llmProvider := { name := "mock-llm"
                     generateText := fun _ =>
                       ("Root Cause: ...\nSuggestions:\n1. Restart the pod",
                        none) }
    actions := [] }

/-- The analysis result produced by the end-to-end detection stage. -/
def c9Analysis : AnalysisResult := (runAnalysis c9Engine).result

/-- An issue for the LLM-sourced-suggestion scenario. -/
def c10Issue : Issue :=
  { id := "i10", name := "OOMKilled", message := "container OOM killed"
    severity := IssueSeverity.critical, resource := none
    analyzers := ["pod-analyzer"] }

/-- An engine whose reasoning backend answers successfully, so that
`runDiagnosis` produces LLM-sourced suggestions. -/
def c10Engine : SREAgentEngine :=
  { config := { actions := { enabled := true }, llmModel := "m10" }
    dataCollectors := []
    analyzers := []
    knowledgeBase := none
    llmProvider := { name := "ok-llm"
                     generateText := fun _ => ("some reply", none) }
    actions := [c7Action] }

/-- An analysis result with one finding, feeding `c10Engine`. -/
def c10Analysis : AnalysisResult :=
  { id := "a10", status := AnalysisStatus.completed, issues := [c10Issue]
    analyzersRun := ["pod-analyzer (Completed)"], errorMsg := "" }

/-- The suggestion `runDiagnosis` constructs from the placeholder
parser's output. -/
def c10Sug : RemediationSuggestion :=
  { issueID := "N/A"
    description :=
      "Parsing failed, cannot extract suggestions from raw response."
    actionType := ActionType.suggestion, command := "", payload := []
    confidence := (4 : Rat) / 5, source := "LLM" }

/-! ## Theorems -/

/-- The merge fold, started from any combined list `c` whose seen-set is
exactly the descriptions of `c`, appends exactly the suggestions that the
spec-side `mergeSpecKeep` keeps. -/
theorem mergeStep_foldl (p : List RemediationSuggestion) :
    ∀ c : List RemediationSuggestion,
      (p.foldl mergeStep (c, c.map (fun s => s.description))).1 =
        c ++ mergeSpecKeep c p := by
  induction p with
  | nil => intro c; simp [mergeSpecKeep]
  | cons s rest ih =>
      intro c
      rw [List.foldl_cons]
      by_cases h : s.description ∈ c.map (fun t => t.description)
      · have hs : mergeStep (c, c.map (fun t => t.description)) s =
            (c, c.map (fun t => t.description)) := by
          simp [mergeStep, h]
        rw [hs, ih c, mergeSpecKeep, if_pos h]
      · have hs : mergeStep (c, c.map (fun t => t.description)) s =
            (c ++ [s], (c ++ [s]).map (fun t => t.description)) := by
          simp [mergeStep, h]
        rw [hs, ih (c ++ [s]), mergeSpecKeep, if_neg h,
          List.append_assoc]
        rfl

/-- The merge of the source agrees with the spec-side merge on all
inputs. -/
theorem mergeSuggestions_eq_spec
    (reasoning planned : List RemediationSuggestion) :
    mergeSuggestions reasoning planned =
      mergeSpecification reasoning planned := by
  unfold mergeSuggestions mergeSpecification
  exact mergeStep_foldl planned reasoning

/-- C1: the merged list returned by SuggestActions is the reasoning
suggestions in order, followed by the action-planned suggestions in
registry order, an action-planned suggestion being kept exactly when no
earlier suggestion of the merged list has the same description text; in
particular merging reasoning list [{desc:"Restart pod X"}] with
action-planned list [{desc:"Restart pod X"}, {desc:"Scale deployment Y"}]
yields exactly "Restart pod X" (from the reasoning list) then "Scale
deployment Y". -/
theorem suggestActions_merge_follows_spec :
    (∀ reasoning planned : List RemediationSuggestion,
        mergeSuggestions reasoning planned =
          mergeSpecification reasoning planned) ∧
    (suggestActions c1Engine c1Diagnosis).result = [c1SugA, c1SugB2] := by
  refine ⟨mergeSuggestions_eq_spec, ?_⟩
  rfl

/-- C2: unless the suggestion is classified automatable, the global
automation flag is on, and the suggestion's `Source` resolves in the
action registry to an action itself classified automatable, ExecuteAction
returns an error and no action's `Execute` runs. -/
theorem executeAction_gate_rejects (cfg : Config)
    (registry : List ActionImpl) (s : RemediationSuggestion)
    (h : ¬ (s.actionType = ActionType.automated ∧
            cfg.actions.enabled = true ∧
            ∃ act, getAction registry s.source = some act ∧
              act.atype = ActionType.automated)) :
    (executeAction cfg registry s).executed = none ∧
    ∃ msg, (executeAction cfg registry s).outcome = Except.error msg := by
  unfold executeAction
  by_cases h1 : s.actionType = ActionType.automated
  · rw [if_neg (by simp [h1])]
    by_cases h2 : cfg.actions.enabled
    · rw [if_neg (by simp [h2])]
      cases hga : getAction registry s.source with
      | none => exact ⟨rfl, _, rfl⟩
      | some act =>
          by_cases h3 : act.atype = ActionType.automated
          · exact absurd ⟨h1, h2, act, hga, h3⟩ h
          · constructor
            · simp [h3]
            · exact ⟨"registered action is not automated", by simp [h3]⟩
    · rw [if_pos (by simpa using h2)]
      exact ⟨rfl, _, rfl⟩
  · rw [if_pos h1]
    exact ⟨rfl, _, rfl⟩

/-- Witness for C2: the gate rejects a suggestion-only suggestion even
with automation enabled. -/
theorem executeAction_gate_rejects_witness :
    (executeAction { actions := { enabled := true }, llmModel := "m" }
        [] c2Suggestion).executed = none ∧
    ∃ msg, (executeAction { actions := { enabled := true }, llmModel := "m" }
        [] c2Suggestion).outcome = Except.error msg :=
  executeAction_gate_rejects _ [] c2Suggestion
    (fun h => by simpa [c2Suggestion] using h.1)

/-- The rendered `AgentError` string is never empty: it starts with an
opening bracket. -/
theorem agentErrorWrapStr_ne_empty (c m d w : String) :
    agentErrorWrapStr c m d w ≠ "" := by
  unfold agentErrorWrapStr
  intro h
  have hd := congrArg String.data h
  simp [String.data_append] at hd

/-- C3: on a reasoning-backend error for an analysis with issues,
RunDiagnosis still returns a diagnosis (the embedding is total, mirroring
the source's unconditional `return diagnosis`) whose root cause is the
fixed failure marker, whose error field is populated, and whose
suggestion list is empty. -/
theorem runDiagnosis_llm_error_fields (e : SREAgentEngine)
    (ar : AnalysisResult) (m : String)
    (hissues : ar.issues ≠ [])
    (herr : (e.llmProvider.generateText (promptOf e ar.issues)).2 =
      some m) :
    (runDiagnosis e ar).diag.rootCause =
      "Failed to perform diagnosis due to LLM error." ∧
    (runDiagnosis e ar).diag.errorMsg ≠ "" ∧
    (runDiagnosis e ar).diag.suggestions = [] := by
  have hie : ar.issues.isEmpty = false := by
    cases h : ar.issues with
    | nil => exact absurd h hissues
    | cons a l => rfl
  unfold runDiagnosis
  simp only [hie, Bool.false_eq_true, if_false, herr]
  exact ⟨trivial, agentErrorWrapStr_ne_empty _ _ _ _, trivial⟩

/-- Witness for C3 at a concrete failing backend. -/
theorem runDiagnosis_llm_error_fields_witness :
    (runDiagnosis c3Engine c3Analysis).diag.rootCause =
      "Failed to perform diagnosis due to LLM error." ∧
    (runDiagnosis c3Engine c3Analysis).diag.errorMsg ≠ "" ∧
    (runDiagnosis c3Engine c3Analysis).diag.suggestions = [] :=
  runDiagnosis_llm_error_fields c3Engine c3Analysis "connection refused"
    (by simp [c3Analysis]) rfl

/-- C4: an analysis result with an empty issue list short-circuits: the
diagnosis has root cause exactly "No issues detected.", no suggestions,
no recorded reasoning exchange, and the reasoning backend is never
called. -/
theorem runDiagnosis_no_issues (e : SREAgentEngine) (ar : AnalysisResult)
    (h : ar.issues = []) :
    (runDiagnosis e ar).diag.rootCause = "No issues detected." ∧
    (runDiagnosis e ar).diag.suggestions = [] ∧
    (runDiagnosis e ar).diag.llmInteraction = none ∧
    (runDiagnosis e ar).llmCalled = false := by
  unfold runDiagnosis
  simp [h]

/-- Witness for C4 at a concrete empty analysis. -/
theorem runDiagnosis_no_issues_witness :
    (runDiagnosis c3Engine c4Analysis).diag.rootCause =
      "No issues detected." ∧
    (runDiagnosis c3Engine c4Analysis).diag.suggestions = [] ∧
    (runDiagnosis c3Engine c4Analysis).diag.llmInteraction = none ∧
    (runDiagnosis c3Engine c4Analysis).llmCalled = false :=
  runDiagnosis_no_issues c3Engine c4Analysis rfl

/-- The analyzer loop of `RunAnalysis` decomposes per analyzer: issues,
audit entries and invocations are each the concatenation of the
per-analyzer contributions. -/
theorem foldl_runAnalyzerStep (t : List (DataSourceType × String))
    (as : List AnalyzerImpl) :
    ∀ acc : List Issue × List String × List String,
      as.foldl (runAnalyzerStep t) acc =
      (acc.1 ++ as.flatMap (issuesContrib t),
       acc.2.1 ++ as.map (auditEntry t),
       acc.2.2 ++ as.flatMap (invokedContrib t)) := by
  induction as with
  | nil => intro acc; simp
  | cons a rest ih =>
      intro acc
      rw [List.foldl_cons, ih]
      unfold runAnalyzerStep auditEntry issuesContrib invokedContrib
      by_cases h : missingData t a
      · simp [h]
      · cases ha : a.analyze with
        | error msg => simp [h, ha]
        | ok issues => simp [h, ha]

/-- C5: an analyzer whose required source types were not all collected is
not invoked, contributes no issues or invocation compared to the same run
without it, and its audit entry is its name suffixed " (Skipped)". -/
theorem runAnalysis_skips_unsatisfied_analyzer (e : SREAgentEngine)
    (l1 l2 : List AnalyzerImpl) (a : AnalyzerImpl)
    (h : missingData (collectData e.dataCollectors) a = true) :
    (runAnalysis { e with analyzers := l1 ++ a :: l2 }).result.issues =
      (runAnalysis { e with analyzers := l1 ++ l2 }).result.issues ∧
    (runAnalysis { e with analyzers := l1 ++ a :: l2 }).invoked =
      (runAnalysis { e with analyzers := l1 ++ l2 }).invoked ∧
    (runAnalysis { e with analyzers := l1 ++ a :: l2 }).result.analyzersRun =
      l1.map (auditEntry (collectData e.dataCollectors)) ++
        (a.name ++ " (Skipped)") ::
          l2.map (auditEntry (collectData e.dataCollectors)) := by
  unfold runAnalysis
  simp only [foldl_runAnalyzerStep]
  refine ⟨?_, ?_, ?_⟩ <;>
    simp [issuesContrib, invokedContrib, auditEntry, h]

/-- Witness for C5: the log analyzer is skipped while the pod analyzer
runs. -/
theorem runAnalysis_skips_unsatisfied_analyzer_witness :
    (runAnalysis { c5Engine with
        analyzers := [] ++ c5NeedsLogs :: [c5Satisfied] }).result.issues =
      (runAnalysis { c5Engine with
        analyzers := [] ++ [c5Satisfied] }).result.issues ∧
    (runAnalysis { c5Engine with
        analyzers := [] ++ c5NeedsLogs :: [c5Satisfied] }).invoked =
      (runAnalysis { c5Engine with
        analyzers := [] ++ [c5Satisfied] }).invoked ∧
    (runAnalysis { c5Engine with
        analyzers := [] ++ c5NeedsLogs :: [c5Satisfied] }).result.analyzersRun =
      [].map (auditEntry (collectData c5Engine.dataCollectors)) ++
        (c5NeedsLogs.name ++ " (Skipped)") ::
          [c5Satisfied].map (auditEntry (collectData c5Engine.dataCollectors)) :=
  runAnalysis_skips_unsatisfied_analyzer c5Engine [] [c5Satisfied]
    c5NeedsLogs rfl

/-- C6: the status of the returned analysis result is always
"completed" — an individual analyzer's failure or skip never yields a
"failed" status (the embedded RunAnalysis can always proceed, so the
"failed only if the stage itself cannot proceed" clause is vacuous) —
and a failing analyzer is recorded with a " (Failed)" audit entry while
the remaining analyzers are still processed. -/
theorem runAnalysis_detector_failure_not_fatal :
    (∀ e : SREAgentEngine,
        (runAnalysis e).result.status = AnalysisStatus.completed) ∧
    (∀ (e : SREAgentEngine) (l1 l2 : List AnalyzerImpl) (a : AnalyzerImpl)
        (msg : String),
      missingData (collectData e.dataCollectors) a = false →
      a.analyze = Except.error msg →
      (runAnalysis { e with analyzers := l1 ++ a :: l2 }).result.analyzersRun =
        l1.map (auditEntry (collectData e.dataCollectors)) ++
          (a.name ++ " (Failed)") ::
            l2.map (auditEntry (collectData e.dataCollectors))) := by
  constructor
  · intro e; rfl
  · intro e l1 l2 a msg h ha
    unfold runAnalysis
    simp only [foldl_runAnalyzerStep]
    simp [auditEntry, h, ha]

/-- Witness for C6: a concrete run with a failing analyzer still reports
status completed, audits the failure, and processes the next analyzer. -/
theorem runAnalysis_detector_failure_not_fatal_witness :
    (runAnalysis { c5Engine with
        analyzers := [] ++ c6Failing :: [c5Satisfied] }).result.status =
      AnalysisStatus.completed ∧
    (runAnalysis { c5Engine with
        analyzers := [] ++ c6Failing :: [c5Satisfied] }).result.analyzersRun =
      [].map (auditEntry (collectData c5Engine.dataCollectors)) ++
        (c6Failing.name ++ " (Failed)") ::
          [c5Satisfied].map (auditEntry (collectData c5Engine.dataCollectors)) :=
  ⟨runAnalysis_detector_failure_not_fatal.1 _,
   runAnalysis_detector_failure_not_fatal.2 c5Engine [] [c5Satisfied]
     c6Failing "boom" rfl rfl⟩

/-- With automation disabled, the planning fold visits exactly the
non-automated actions: the automated ones are skipped by the
`Type() == Automated && !Enabled` guard. -/
theorem planActions_foldl_disabled (d : DiagnosisResult)
    (as : List ActionImpl) :
    ∀ acc, as.foldl (fun acc act => planActionsStep false acc act d) acc =
      (as.filter (fun a => !(a.atype == ActionType.automated))).foldl
        (fun acc act => planActionsStep false acc act d) acc := by
  induction as with
  | nil => intro acc; rfl
  | cons a rest ih =>
      intro acc
      rw [List.foldl_cons, ih, List.filter_cons]
      by_cases h : a.atype = ActionType.automated
      · have hstep : planActionsStep false acc a d = acc := by
          unfold planActionsStep
          exact if_pos ⟨h, rfl⟩
        rw [hstep]
        simp [h]
      · have hcond : (!(a.atype == ActionType.automated)) = true := by
          simp [h]
        rw [if_pos hcond, List.foldl_cons]

/-- Over a list of non-automated actions the planning fold invokes every
`Plan` and records every name. -/
theorem planActions_planned_nonautomated (d : DiagnosisResult) :
    ∀ as : List ActionImpl,
      (∀ a ∈ as, ¬ a.atype = ActionType.automated) →
      ∀ acc,
        (as.foldl (fun acc act => planActionsStep false acc act d) acc).2 =
          acc.2 ++ as.map (fun a => a.name) := by
  intro as
  induction as with
  | nil => intro _ acc; simp
  | cons a rest ih =>
      intro h acc
      rw [List.foldl_cons,
        ih (fun b hb => h b (List.mem_cons_of_mem _ hb))]
      have ha := h a (List.mem_cons_self _ _)
      unfold planActionsStep
      rw [if_neg (fun hc => ha hc.1)]
      cases hp : a.plan d with
      | error msg => simp
      | ok pr => cases pr with
        | mk rel s => cases rel <;> simp

/-- Counterexample to C7 as stated: with the automation flag false, an
engine holding one registered automatable action whose `Plan` would
return a relevant suggestion invokes no `Plan` at all, and the
suggestion does not appear in the returned list. -/
theorem suggestActions_disabled_cex :
    c7Engine.config.actions.enabled = false ∧
    c7Action ∈ c7Engine.actions ∧
    c7Action.atype = ActionType.automated ∧
    c7Action.plan c7Diagnosis = Except.ok (true, c7Sug) ∧
    (suggestActions c7Engine c7Diagnosis).planned = [] ∧
    c7Sug ∉ (suggestActions c7Engine c7Diagnosis).result := by
  refine ⟨rfl, List.mem_singleton.mpr rfl, rfl, rfl, rfl, ?_⟩
  have hres : (suggestActions c7Engine c7Diagnosis).result = [] := rfl
  rw [hres]
  exact List.not_mem_nil _

/-- C7 amended: when the global automation flag is false, SuggestActions
skips planning for automatable actions — their `Plan` is never invoked
and their suggestions are absent — and behaves exactly as if only the
non-automatable actions were registered, whose `Plan` it still invokes
in registry order. -/
theorem suggestActions_disabled_amended (e : SREAgentEngine)
    (d : DiagnosisResult) (h : e.config.actions.enabled = false) :
    suggestActions e d =
      suggestActions { e with actions := e.actions.filter (fun a => !(a.atype == ActionType.automated)) } d ∧
    (suggestActions e d).planned =
      (e.actions.filter
        (fun a => !(a.atype == ActionType.automated))).map
          (fun a => a.name) := by
  unfold suggestActions planActions
  simp only [h]
  constructor
  · rw [planActions_foldl_disabled]
  · rw [planActions_foldl_disabled]
    rw [planActions_planned_nonautomated d _ (fun a ha => by
      have := List.of_mem_filter ha
      simpa using this)]
    simp

/-- Witness for the amended C7 at the concrete disabled-automation
engine. -/
theorem suggestActions_disabled_amended_witness :
    suggestActions c7Engine c7Diagnosis =
      suggestActions { c7Engine with actions := c7Engine.actions.filter (fun a => !(a.atype == ActionType.automated)) } c7Diagnosis ∧
    (suggestActions c7Engine c7Diagnosis).planned =
      (c7Engine.actions.filter
        (fun a => !(a.atype == ActionType.automated))).map
          (fun a => a.name) :=
  suggestActions_disabled_amended c7Engine c7Diagnosis rfl

/-- C8: registering a second implementation under a name already present
in the same registry is fatal (the registration call ends in the
panic branch, embedded as `Except.error`), in both the analyzer and the
action registry; registering one shared name into the two different
registries succeeds for both. -/
theorem register_duplicate_fatal :
    (∀ (reg : List (String × AnalyzerImpl)) (a b : AnalyzerImpl)
        (reg' : List (String × AnalyzerImpl)),
      a.name = b.name → registerAnalyzer reg a = Except.ok reg' →
      ∃ m, registerAnalyzer reg' b = Except.error m) ∧
    (∀ (reg : List (String × ActionImpl)) (a b : ActionImpl)
        (reg' : List (String × ActionImpl)),
      a.name = b.name → registerAction reg a = Except.ok reg' →
      ∃ m, registerAction reg' b = Except.error m) ∧
    c8Analyzer.name = c8Action.name ∧
    (∃ r1, registerAnalyzer [] c8Analyzer = Except.ok r1) ∧
    (∃ r2, registerAction [] c8Action = Except.ok r2) := by
  refine ⟨?_, ?_, rfl, ⟨_, rfl⟩, ⟨_, rfl⟩⟩
  · intro reg a b reg' hname hok
    unfold registerAnalyzer at hok ⊢
    split at hok
    · exact absurd hok (by simp)
    · injection hok with hr
      subst hr
      rw [if_pos (by simp [List.any_append, hname.symm])]
      exact ⟨_, rfl⟩
  · intro reg a b reg' hname hok
    unfold registerAction at hok ⊢
    split at hok
    · exact absurd hok (by simp)
    · injection hok with hr
      subst hr
      rw [if_pos (by simp [List.any_append, hname.symm])]
      exact ⟨_, rfl⟩

/-- Witness for C8: after registering `c8Analyzer`, registering the
same-named `c8AnalyzerDup` into the analyzer registry is fatal. -/
theorem register_duplicate_fatal_witness :
    ∃ m, registerAnalyzer [("restart-helper", c8Analyzer)] c8AnalyzerDup =
      Except.error m :=
  register_duplicate_fatal.1 [] c8Analyzer c8AnalyzerDup
    [("restart-helper", c8Analyzer)] rfl rfl

set_option maxRecDepth 40000 in
/-- C9: in the end-to-end scenario the detection stage does produce one
finding with status completed and the prompt recorded on the reasoning
exchange does contain the literal "PodCrashLoopBackOff"; however, with
the mocked backend answering "Root Cause: ...\nSuggestions:\n1. Restart
the pod", the placeholder parser yields a diagnosis whose only
suggestion is the fixed could-not-parse marker, so no suggestion's
description contains "restart" — the claim's final expectation fails on
the code. -/
theorem e2e_placeholder_parser_divergence :
    c9Analysis.issues.length = 1 ∧
    c9Analysis.status = AnalysisStatus.completed ∧
    "PodCrashLoopBackOff".data <:+:
      (((runDiagnosis c9Engine c9Analysis).diag.llmInteraction.map
        (fun i => i.prompt)).getD "").data ∧
    (runDiagnosis c9Engine c9Analysis).diag.rootCause ≠ "" ∧
    (runDiagnosis c9Engine c9Analysis).diag.suggestions.map
      (fun s => s.description) =
      ["Parsing failed, cannot extract suggestions from raw response."] ∧
    ¬ (∃ s ∈ (runDiagnosis c9Engine c9Analysis).diag.suggestions,
        "restart".data <:+: s.description.data) := by
  refine ⟨rfl, rfl, by decide, by decide, rfl, ?_⟩
  rintro ⟨s, hs, hinf⟩
  have hmap : (runDiagnosis c9Engine c9Analysis).diag.suggestions.map
      (fun t => t.description) =
      ["Parsing failed, cannot extract suggestions from raw response."] :=
    rfl
  have hdm := List.mem_map_of_mem (fun t => t.description) hs
  rw [hmap] at hdm
  have hd : s.description =
      "Parsing failed, cannot extract suggestions from raw response." :=
    List.mem_singleton.mp hdm
  rw [hd] at hinf
  exact
    (by decide :
      ¬ ("restart".data <:+:
        "Parsing failed, cannot extract suggestions from raw response.".data))
    hinf

/-- C10: every suggestion RunDiagnosis constructs from the reasoning
backend's parsed output is classified suggestion-only with producer
"LLM", and ExecuteAction always rejects it without running any action's
`Execute`. -/
theorem llm_suggestions_never_executed (e : SREAgentEngine)
    (ar : AnalysisResult) (cfg : Config) (registry : List ActionImpl)
    (s : RemediationSuggestion)
    (h : s ∈ (runDiagnosis e ar).diag.suggestions) :
    s.actionType = ActionType.suggestion ∧ s.source = "LLM" ∧
    (executeAction cfg registry s).executed = none ∧
    ∃ m, (executeAction cfg registry s).outcome = Except.error m := by
  have hfields :
      s.actionType = ActionType.suggestion ∧ s.source = "LLM" := by
    unfold runDiagnosis at h
    by_cases hie : ar.issues.isEmpty
    · simp [hie] at h
    · rw [Bool.not_eq_true] at hie
      cases hllm : (e.llmProvider.generateText (promptOf e ar.issues)).2 with
      | some m =>
          simp [hie, hllm] at h
      | none =>
          simp [hie, hllm, parseLLMDiagnosisResponse] at h
          exact ⟨by rw [h], by rw [h]⟩
  refine ⟨hfields.1, hfields.2, ?_, ?_⟩
  · unfold executeAction
    rw [if_pos (by simp [hfields.1])]
  · unfold executeAction
    rw [if_pos (by simp [hfields.1])]
    exact ⟨_, rfl⟩

/-- Witness for C10: the concrete LLM-sourced suggestion produced by a
successful diagnosis is rejected by the execution gate. -/
theorem llm_suggestions_never_executed_witness :
    c10Sug.actionType = ActionType.suggestion ∧ c10Sug.source = "LLM" ∧
    (executeAction c10Engine.config c10Engine.actions c10Sug).executed =
      none ∧
    ∃ m, (executeAction c10Engine.config c10Engine.actions
      c10Sug).outcome = Except.error m :=
  llm_suggestions_never_executed c10Engine c10Analysis c10Engine.config
    c10Engine.actions c10Sug (List.mem_singleton.mpr rfl)

end ChasiSreagent
